import Mathlib

/-!
Shallow embedding of the zVault frontend verification harness
(`src/frontend/test-proof.py` and `src/frontend/test-zk-proof.py`).

Strings model Python `str`.  Python's case-sensitive substring test
`needle in hay` is modelled by `strContains hay needle`, and Python's
`str.lower()` by `strLower` (ASCII lowering, which covers every keyword
and marker the harness uses).  Console logs are modelled as the list of
buffered log strings, HTTP statuses as naturals, and response headers as
association lists of string pairs.
-/

/-- Helper for the Python substring test: scans the tails of the haystack
and checks whether the needle is a prefix of one of them. -/
def strContainsAux (needle : List Char) : List Char → Bool
  | [] => needle.isEmpty
  | c :: cs => needle.isPrefixOf (c :: cs) || strContainsAux needle cs

/-- Python's substring test `needle in hay` (case-sensitive, contiguous). -/
def strContains (hay needle : String) : Bool :=
  strContainsAux needle.toList hay.toList

/-- Python's `s.lower()`, modelled over the character list (ASCII range). -/
def strLower (s : String) : String :=
  String.mk (s.toList.map Char.toLower)

/-- Embeds `test-zk-proof.py` line 72: `poseidon_logs = [log for log in
console_logs if 'Poseidon' in log or 'commitment' in log.lower()]`.
Note the first keyword is matched case-sensitively against the raw log. -/
def poseidonFilter (console_logs : List String) : List String :=
  console_logs.filter
    (fun log => strContains log "Poseidon" || strContains (strLower log) "commitment")

/-- Embeds `test-zk-proof.py` line 73, with the keyword list as a parameter:
`zk_logs = [log for log in console_logs if any(kw in log.lower() for kw in ...)]`.
The keyword is used as written, only the log text is lowered. -/
def zkLogsFilter (keywords : List String) (console_logs : List String) : List String :=
  console_logs.filter (fun log => keywords.any (fun kw => strContains (strLower log) kw))

/-- Keyword list hard-coded at `test-zk-proof.py` line 73. -/
def zk_log_keywords : List String := ["zk", "proof", "snark", "circom"]

/-- Keyword list of `test-proof.py` lines 134-136. -/
def zk_keywords : List String :=
  ["Deposit", "ZK", "Poseidon", "proof", "commitment", "nullifier",
   "secret", "note", "circom", "snark", "groth16", "wasm", "zkey",
   "Prepare", "Mint", "Amount", "taproot", "address"]

/-- Embeds `test-proof.py` lines 137-138: `[log for log in console_logs
if any(kw.lower() in log.lower() for kw in zk_keywords)]`.  Both the
keyword and the log text are lowered before the substring test. -/
def correlate (console_logs : List String) (keywords : List String) : List String :=
  console_logs.filter
    (fun log => keywords.any (fun kw => strContains (strLower log) (strLower kw)))

/-- Embeds `test-zk-proof.py` line 98: `poseidon_ok = any('Poseidon note
created' in log for log in poseidon_logs)` — the success-signal check,
scanning the pre-filtered Poseidon/commitment subset. -/
def poseidon_ok (console_logs : List String) : Bool :=
  (poseidonFilter console_logs).any (fun log => strContains log "Poseidon note created")

/-- Per-resource ok predicate: `X_response.status == 200`
(`test-zk-proof.py` lines 93-95). -/
def resource_ok (status : Nat) : Bool := status == 200

/-- Embeds `test-zk-proof.py` lines 93-95: conjunction of the three
resource probes' status checks. -/
def circuit_files_ok (wasmStatus zkeyStatus vkStatus : Nat) : Bool :=
  resource_ok wasmStatus && resource_ok zkeyStatus && resource_ok vkStatus

/-- Embeds `test-zk-proof.py` line 101: the final verdict condition
`circuit_files_ok and poseidon_ok`. -/
def overall_ok (wasmStatus zkeyStatus vkStatus : Nat) (console_logs : List String) : Bool :=
  circuit_files_ok wasmStatus zkeyStatus vkStatus && poseidon_ok console_logs

/-- Marker-phrase check over the whole log buffer (the spec-side view of
the refinement claim: line 98 evaluated without the line-72 filter). -/
def marker_in_buffer (console_logs : List String) : Bool :=
  console_logs.any (fun log => strContains log "Poseidon note created")

/-- Python's `headers.get(key, default)` over an association list
(`test-zk-proof.py` lines 20, 24, 28). -/
def headersGet (headers : List (String × String)) (key dflt : String) : String :=
  match headers.find? (fun p => p.fst == key) with
  | some p => p.snd
  | none => dflt

/-- Embeds the reported length token of `test-zk-proof.py` line 20:
`response.headers.get('content-length', 'unknown')` — the raw header
string, printed verbatim. -/
def reported_content_length (headers : List (String × String)) : String :=
  headersGet headers "content-length" "unknown"

/-- Decimal parser accumulator (48 is the code point of the digit zero). -/
def parseDecAux : List Char → Nat → Option Nat
  | [], acc => some acc
  | c :: cs, acc => if c.isDigit then parseDecAux cs (10 * acc + (c.toNat - 48)) else none

/-- Parses a non-empty all-digit string to a natural, like Python's `int`. -/
def parseDec (s : String) : Option Nat :=
  match s.toList with
  | [] => none
  | c :: cs => parseDecAux (c :: cs) 0

/-- Follows the spec's words for `ResourceResult.contentLength`: the
content-length header parsed to an integer, absent when the header is
missing.  The scripts themselves never build this value; this definition
exists only to be compared with `reported_content_length`. -/
def contentLength_spec (headers : List (String × String)) : Option Nat :=
  match headers.find? (fun p => p.fst == "content-length") with
  | some p => parseDec p.snd
  | none => none

/-- Observable behaviour of one optional UI step: `elems` is the list of
element identifiers the step's locator resolves to, in document order
(`locator(...)`, whose `count()` is the list length and whose `first` is
the head); `raises` says whether performing the action on the resolved
element raises an exception. -/
structure StepBehavior where
  elems : List Nat
  raises : Bool

/-- Outcome of one step of the pattern `if loc.count() > 0: loc.first.<action>()`
(`test-proof.py` lines 29-31 and the like): no matching element skips the
action, otherwise the action targets the first match or raises. -/
inductive StepOutcome where
  | noMatch
  | acted (target : Nat)
  | raised

/-- Executes one step of the `if loc.count() > 0: loc.first.<action>()` pattern. -/
def execStep (b : StepBehavior) : StepOutcome :=
  match b.elems with
  | [] => StepOutcome.noMatch
  | e :: _ => if b.raises then StepOutcome.raised else StepOutcome.acted e

/-- Whether a step outcome is a raised exception. -/
def isRaised : StepOutcome → Bool
  | StepOutcome.raised => true
  | _ => false

/-- Embeds one `try:` block of `test-proof.py` (e.g. lines 27-45): steps run
in order; a raised exception jumps to the `except` clause, so the later
steps of the block are not attempted; the block itself always returns.
The result is the attempted flag of each step of the block. -/
def runGroup : List StepBehavior → List Bool
  | [] => []
  | b :: rest =>
    true :: (if isRaised (execStep b) then rest.map (fun _ => false) else runGroup rest)

/-- Embeds the sequence of `try:` blocks of `test_deposit_flow`: every block
is entered regardless of what earlier blocks did. -/
def runGroups (groups : List (List StepBehavior)) : List (List Bool) :=
  groups.map runGroup

/-- Embeds the unguarded step sequence of `test_zk_setup`
(`test-zk-proof.py` lines 35-67): no `try`/`except` surrounds the steps,
so a raised exception propagates and terminates the run. -/
def runUnguarded : List StepBehavior → Except String (List StepOutcome)
  | [] => Except.ok []
  | b :: rest =>
    if isRaised (execStep b) then Except.error "unhandled exception"
    else
      match runUnguarded rest with
      | Except.ok rs => Except.ok (execStep b :: rs)
      | Except.error e => Except.error e

/-- Action taken by the checkbox-toggle step. -/
inductive ToggleAction where
  | clickLabel (target : Nat)
  | clickContainer (target : Nat)
  | skipped

/-- Embeds `test-proof.py` lines 61-70: click the first matching
`label:has(input...)` element; only in the `else` branch (zero label
matches) try the `div:has(> input...)` container, clicking its first
match; otherwise do nothing. -/
def toggleCheckbox (labelMatches containerMatches : List Nat) : ToggleAction :=
  match labelMatches with
  | l :: _ => ToggleAction.clickLabel l
  | [] =>
    match containerMatches with
    | c :: _ => ToggleAction.clickContainer c
    | [] => ToggleAction.skipped

theorem isPrefixOf_iff_append : ∀ (n h : List Char),
    n.isPrefixOf h = true ↔ ∃ t, h = n ++ t
  | [], h => by simp [List.isPrefixOf]
  | a :: as, [] => by simp [List.isPrefixOf]
  | a :: as, b :: bs => by
    simp only [List.isPrefixOf, Bool.and_eq_true, beq_iff_eq, List.cons_append,
      List.cons.injEq]
    constructor
    · rintro ⟨rfl, h2⟩
      obtain ⟨t, rfl⟩ := (isPrefixOf_iff_append as bs).mp h2
      exact ⟨t, rfl, rfl⟩
    · rintro ⟨t, rfl, rfl⟩
      exact ⟨rfl, (isPrefixOf_iff_append as (as ++ t)).mpr ⟨t, rfl⟩⟩

theorem strContainsAux_iff (n : List Char) : ∀ h : List Char,
    strContainsAux n h = true ↔ ∃ s t, h = s ++ (n ++ t)
  | [] => by
    simp only [strContainsAux, List.isEmpty_iff]
    constructor
    · rintro rfl
      exact ⟨[], [], rfl⟩
    · rintro ⟨s, t, hst⟩
      rcases List.append_eq_nil.mp hst.symm with ⟨-, h2⟩
      exact (List.append_eq_nil.mp h2).1
  | c :: cs => by
    simp only [strContainsAux, Bool.or_eq_true, isPrefixOf_iff_append,
      strContainsAux_iff n cs]
    constructor
    · rintro (⟨t, ht⟩ | ⟨s, t, hst⟩)
      · exact ⟨[], t, ht⟩
      · exact ⟨c :: s, t, by rw [List.cons_append, ← hst]⟩
    · rintro ⟨s, t, hst⟩
      cases s with
      | nil => exact Or.inl ⟨t, hst⟩
      | cons d ds =>
        rw [List.cons_append, List.cons.injEq] at hst
        exact Or.inr ⟨ds, t, hst.2⟩

theorem strContains_needle_split (hay : String) (n1 n2 : List Char) (needle : String)
    (hsplit : needle.toList = n1 ++ n2) (h : strContains hay needle = true) :
    strContainsAux n1 hay.toList = true := by
  unfold strContains at h
  rw [hsplit] at h
  obtain ⟨s, t, hst⟩ := (strContainsAux_iff _ _).mp h
  exact (strContainsAux_iff _ _).mpr ⟨s, n2 ++ t, by rw [hst, List.append_assoc]⟩

theorem marker_implies_poseidon (log : String)
    (h : strContains log "Poseidon note created" = true) :
    strContains log "Poseidon" = true :=
  strContains_needle_split log ("Poseidon").toList (" note created").toList
    "Poseidon note created" (by decide) h

theorem poseidon_ok_eq_marker (console_logs : List String) :
    poseidon_ok console_logs = marker_in_buffer console_logs := by
  unfold poseidon_ok poseidonFilter marker_in_buffer
  rw [List.any_filter]
  induction console_logs with
  | nil => rfl
  | cons l ls ih =>
    simp only [List.any_cons, ih]
    congr 1
    cases hq : strContains l "Poseidon note created" with
    | false => simp
    | true => simp [marker_implies_poseidon l hq]

/-- C1: the final verdict of `test_zk_setup` is the conjunction of the
resource check and the log-signal check — `overall_ok` is true iff all
three resource probes returned HTTP 200 and at least one buffered console
log contains the marker phrase "Poseidon note created". -/
theorem C1_overall_ok_iff (wasmStatus zkeyStatus vkStatus : Nat)
    (console_logs : List String) :
    overall_ok wasmStatus zkeyStatus vkStatus console_logs = true ↔
      ((wasmStatus = 200 ∧ zkeyStatus = 200 ∧ vkStatus = 200) ∧
        ∃ log ∈ console_logs, strContains log "Poseidon note created" = true) := by
  unfold overall_ok circuit_files_ok resource_ok
  rw [poseidon_ok_eq_marker]
  unfold marker_in_buffer
  simp [List.any_eq_true, and_assoc]

/-- C2 counterexample: the marker check of `test-zk-proof.py` line 98 is
case-sensitive, not case-insensitive — a log that contains the marker
phrase up to letter case is not detected. -/
theorem C2_counterexample :
    poseidon_ok ["POSEIDON NOTE CREATED"] = false ∧
    strContains (strLower "POSEIDON NOTE CREATED")
      (strLower "Poseidon note created") = true := by
  exact ⟨by decide, by decide⟩

/-- C2 amended: the success-signal check returns true iff at least one
buffered event's text contains the exact marker string as a substring
under case-sensitive comparison, and returns false on an empty buffer. -/
theorem C2_signal_case_sensitive (console_logs : List String) :
    (poseidon_ok console_logs = true ↔
      ∃ log ∈ console_logs, strContains log "Poseidon note created" = true) ∧
    poseidon_ok [] = false := by
  refine ⟨?_, rfl⟩
  rw [poseidon_ok_eq_marker]
  unfold marker_in_buffer
  simp [List.any_eq_true]

/-- C3 counterexample: the keyword filter of `test-zk-proof.py` line 73
matches keywords case-sensitively against the lowered log text, so
replacing the keyword "zk" by its case permutation "ZK" changes the
filtered output. -/
theorem C3_counterexample :
    strLower "ZK" = strLower "zk" ∧
    zkLogsFilter ["zk"] ["ZK proof ready"] = ["ZK proof ready"] ∧
    zkLogsFilter ["ZK"] ["ZK proof ready"] = [] := by
  exact ⟨by decide, by decide, by decide⟩

/-- C3 amended: every keyword-correlation filter in the scripts returns an
order-preserving subsequence of its input (no fabricated or reordered
entries), and the `test-proof.py` correlator — which lowers both keyword
and log text — is invariant under case permutations of its keywords;
the `test-zk-proof.py` line-73 filter is not (see the counterexample). -/
theorem C3_correlate_props (console_logs keywords keywords2 : List String)
    (hperm : keywords.map strLower = keywords2.map strLower) :
    List.Sublist (correlate console_logs keywords) console_logs ∧
    List.Sublist (zkLogsFilter keywords console_logs) console_logs ∧
    List.Sublist (poseidonFilter console_logs) console_logs ∧
    correlate console_logs keywords = correlate console_logs keywords2 := by
  refine ⟨List.filter_sublist _, List.filter_sublist _, List.filter_sublist _, ?_⟩
  unfold correlate
  congr 1
  funext log
  have h1 : keywords.any (fun kw => strContains (strLower log) (strLower kw))
      = (keywords.map strLower).any (fun kl => strContains (strLower log) kl) := by
    rw [List.any_map]
    rfl
  have h2 : keywords2.any (fun kw => strContains (strLower log) (strLower kw))
      = (keywords2.map strLower).any (fun kl => strContains (strLower log) kl) := by
    rw [List.any_map]
    rfl
  rw [h1, h2, hperm]

/-- Witness for the C3 amended theorem at concrete inputs: the keyword
lists ["ZK"] and ["zk"] agree after lowering, and the correlator gives
the same output on both. -/
theorem C3_correlate_props_witness :
    (["ZK"].map strLower = ["zk"].map strLower) ∧
    List.Sublist (correlate ["uses ZK"] ["ZK"]) ["uses ZK"] ∧
    correlate ["uses ZK"] ["ZK"] = correlate ["uses ZK"] ["zk"] :=
  ⟨by decide,
    (C3_correlate_props ["uses ZK"] ["ZK"] ["zk"] (by decide)).1,
    (C3_correlate_props ["uses ZK"] ["ZK"] ["zk"] (by decide)).2.2.2⟩

/-- C4 counterexample: in a guarded block of `test_deposit_flow` a raising
step action (such as the Generate click of lines 29-31) jumps to the
`except` clause, so the following step of the same block (the Continue
click) is never attempted; and in `test_zk_setup`, whose steps are
unguarded, a raising action terminates the run before any verdict. -/
theorem C4_counterexample :
    isRaised (execStep ⟨[1], true⟩) = true ∧
    runGroup [⟨[1], true⟩, ⟨[1], false⟩] = [true, false] ∧
    runUnguarded [⟨[1], true⟩, ⟨[1], false⟩] = Except.error "unhandled exception" :=
  ⟨rfl, rfl, rfl⟩

/-- C4 amended: in `test_deposit_flow` every `try:` block is entered and
the run always completes with one attempted-flag list per block, but
within a block a step is attempted iff no earlier step of the same block
raised; in `test_zk_setup` a raising step action terminates the run. -/
theorem C4_attempted_iff (groups : List (List StepBehavior)) (g : List StepBehavior) :
    (runGroups groups).length = groups.length ∧
    runGroup g = (List.range g.length).map
      (fun j => (g.take j).all (fun b => !(isRaised (execStep b)))) := by
  refine ⟨by simp [runGroups], ?_⟩
  induction g with
  | nil => rfl
  | cons b rest ih =>
    rw [runGroup, List.length_cons, List.range_succ_eq_map, List.map_cons, List.map_map]
    cases hb : isRaised (execStep b) with
    | true =>
      simp only [Function.comp_def, List.take_succ_cons, List.all_cons, hb,
        Bool.not_true, Bool.false_and, List.take_zero, List.all_nil,
        List.map_const', List.length_range]
      simp
    | false =>
      simp only [Function.comp_def, List.take_succ_cons, List.all_cons, hb,
        Bool.not_false, Bool.true_and, List.take_zero, List.all_nil]
      rw [ih]
      simp

/-- C5: a step whose selector matches zero elements performs no action and
never raises — the `count() > 0` branch is skipped (whatever the action
would have done) and control proceeds to the next step of the block. -/
theorem C5_optional_step_skip (r : Bool) (rest : List StepBehavior) :
    execStep ⟨[], r⟩ = StepOutcome.noMatch ∧
    runGroup (⟨[], r⟩ :: rest) = true :: runGroup rest :=
  ⟨rfl, rfl⟩

/-- C6: the per-resource ok predicate is true iff the HTTP status equals
200 (so HTTP 404 yields false), and the aggregated circuit-files-ok
result is true iff all three probe statuses equal 200. -/
theorem C6_resource_ok_iff (s wasmStatus zkeyStatus vkStatus : Nat) :
    (resource_ok s = true ↔ s = 200) ∧
    resource_ok 404 = false ∧
    (circuit_files_ok wasmStatus zkeyStatus vkStatus = true ↔
      (wasmStatus = 200 ∧ zkeyStatus = 200 ∧ vkStatus = 200)) := by
  refine ⟨?_, rfl, ?_⟩ <;> simp [resource_ok, circuit_files_ok, and_assoc]

/-- C7 counterexample: the probe report of `test-zk-proof.py` line 20 is
the raw content-length header string, never parsed — a header "0012" is
reported verbatim rather than as the decimal rendering of the parsed
integer 12, and a missing header is reported as the literal string
"unknown" rather than as an absent value. -/
theorem C7_counterexample :
    reported_content_length [] = "unknown" ∧
    contentLength_spec [] = none ∧
    reported_content_length [("content-length", "0012")] = "0012" ∧
    contentLength_spec [("content-length", "0012")] = some 12 ∧
    Nat.repr 12 ≠ "0012" := by
  exact ⟨rfl, rfl, rfl, by decide, by decide⟩

/-- C7 amended: the probe reports the raw content-length header string
verbatim — for a header holding "1234" the reported string is "1234",
whose integer parse is 1234 — and a missing header is reported as the
fixed string "unknown", not as an absent value. -/
theorem C7_raw_header_report (headers : List (String × String)) (v : String) (n : Nat)
    (hfind : headers.find? (fun p => p.fst == "content-length")
      = some ("content-length", v))
    (hparse : parseDec v = some n) :
    reported_content_length headers = v ∧
    contentLength_spec headers = some n ∧
    reported_content_length [] = "unknown" ∧
    contentLength_spec [] = none := by
  unfold reported_content_length headersGet contentLength_spec
  rw [hfind]
  exact ⟨rfl, hparse, rfl, rfl⟩

/-- Witness for the C7 amended theorem at the header value "1234". -/
theorem C7_raw_header_report_witness :
    ([("content-length", "1234")].find? (fun p => p.fst == "content-length")
      = some ("content-length", "1234")) ∧
    parseDec "1234" = some 1234 ∧
    reported_content_length [("content-length", "1234")] = "1234" ∧
    contentLength_spec [("content-length", "1234")] = some 1234 :=
  ⟨by decide, by decide,
    (C7_raw_header_report [("content-length", "1234")] "1234" 1234
      (by decide) (by decide)).1,
    (C7_raw_header_report [("content-length", "1234")] "1234" 1234
      (by decide) (by decide)).2.1⟩

/-- C8: when a selector query matches more than one element, the acted
element is deterministically the first match in document order (the head
of the resolved list), and multiple matches are never an error — the
action is performed, nothing is raised. -/
theorem C8_first_match (ea eb : Nat) (rest : List Nat) :
    execStep ⟨ea :: eb :: rest, false⟩ = StepOutcome.acted ea ∧
    isRaised (execStep ⟨ea :: eb :: rest, false⟩) = false :=
  ⟨rfl, rfl⟩

/-- C9: the checkbox toggle clicks a label or container ancestor of the
checkbox, in an ordered fallback chain — the label selector is tried
first, and the container-div selector is attempted only when the label
selector matches zero elements. -/
theorem C9_toggle_fallback (l c : Nat) (ls cs : List Nat) :
    toggleCheckbox (l :: ls) cs = ToggleAction.clickLabel l ∧
    toggleCheckbox [] (c :: cs) = ToggleAction.clickContainer c ∧
    toggleCheckbox [] [] = ToggleAction.skipped :=
  ⟨rfl, rfl, rfl⟩

/-- C10: evaluating the marker-phrase check over the pre-filtered
Poseidon/commitment subset is equivalent to evaluating it over the full
log buffer, because any string containing "Poseidon note created" also
contains the filter keyword "Poseidon" and therefore survives the filter. -/
theorem C10_filter_marker_equiv (console_logs : List String) :
    poseidon_ok console_logs = marker_in_buffer console_logs :=
  poseidon_ok_eq_marker console_logs
